import Mathlib

/-!
Verification of the LocalAgent repository's agent orchestration layer.

The repository builds four LangGraph agents (blog writer, file editor a.k.a.
code agent, email agent, retrieval-augmented QA agent), each with the same
shape: an `llm` node invoking the model, a `router` inspecting the last
message, a `tools` node dispatching the model's tool calls, and a
per-agent entry point. We give a shallow embedding of the message data
model, the routers, the turn executors (`llm_node`s), the orchestration
loop, the entry points, and the two tool handlers the claims inspect
(`create_new_blog` and `list_unread_emails`). External collaborators (the
Ollama model, the tool executor of `langgraph.prebuilt.ToolNode`, `json.loads`,
the IMAP mailbox) are passed in as explicit oracles, following the
collaborator interfaces the spec declares for them.
-/

namespace LocalAgent

/-- A LangChain tool call as carried by `AIMessage.tool_calls`: LangChain's
standardized `ToolCall` typed dict has keys `name`, `args`, `id` (plus `type`).
Argument values are modelled as strings, which is enough for the routers and
dispatch, neither of which reads inside `args`. -/
structure ToolCall where
  name : String
  args : List (String × String)
  id : String
deriving DecidableEq, Repr

/-- The message union used by every agent: `HumanMessage`, `AIMessage`
(with its `tool_calls` list, empty by default), `ToolMessage` (with its
`tool_call_id`), and `SystemMessage`. -/
inductive Msg where
  | user (text : String)
  | assistant (text : String) (tool_calls : List ToolCall)
  | toolResult (tool_call_id : String) (text : String)
  | system (text : String)
deriving DecidableEq, Repr

/-- The content/text field of a message. -/
def msgText : Msg → String
  | .user t => t
  | .assistant t _ => t
  | .toolResult _ t => t
  | .system t => t

/-- Whether a message is a `ToolMessage`. -/
def Msg.isToolResult : Msg → Bool
  | .toolResult _ _ => true
  | _ => false

/-- Whether a message is an `AIMessage` whose `tool_calls` list is non-empty,
i.e. truthy under Python `getattr(m, "tool_calls", None)`. -/
def carriesToolCalls : Msg → Bool
  | .assistant _ (_ :: _) => true
  | _ => false

/-- Whether a message list starts with a `SystemMessage`. -/
def startsWithSystem : List Msg → Bool
  | .system _ :: _ => true
  | _ => false

/-! ### Routers

Each Python router reads `state["messages"][-1]` (an `IndexError`, modelled
as `none`, on an empty history) and returns one of the strings `"tools"`,
`"llm"`, `"end"`. -/

/-- `blog_writer.router`: `AIMessage` with truthy `tool_calls` routes to
`"tools"`; a `ToolMessage` routes to `"llm"`; everything else to `"end"`. -/
def blog_router (messages : List Msg) : Option String :=
  match messages.getLast? with
  | none => none
  | some last_message =>
    match last_message with
    | .assistant _ (_ :: _) => some "tools"
    | .toolResult _ _ => some "llm"
    | _ => some "end"

/-- `email_agent.router`: `"tools"` if the last message has truthy
`tool_calls` (only an `AIMessage` with a non-empty list), else `"end"`. -/
def email_router (messages : List Msg) : Option String :=
  match messages.getLast? with
  | none => none
  | some last_message =>
    match last_message with
    | .assistant _ (_ :: _) => some "tools"
    | _ => some "end"

/-- `rag_agent.router`: textually the same decision as the email router. -/
def rag_router (messages : List Msg) : Option String :=
  match messages.getLast? with
  | none => none
  | some last_message =>
    match last_message with
    | .assistant _ (_ :: _) => some "tools"
    | _ => some "end"

/-! The code agent's router reads
`first_call.get("function", {}).get("name", "")` on the first tool-call
dict. We model the Python dict lookups explicitly so the embedding follows
the source line by line. -/

/-- A Python value: a string or a string-keyed dict (all that these lookups
can touch). -/
inductive PyVal where
  | pstr (s : String)
  | pdict (entries : List (String × PyVal))

/-- Python `d.get(key, default)` on a dict given as an association list. -/
def pyDictGet (d : List (String × PyVal)) (key : String) (dflt : PyVal) : PyVal :=
  match d.find? (fun kv => kv.1 == key) with
  | some kv => kv.2
  | none => dflt

/-- `v.get(key, default)` where `v` must be a dict (as it is at both call
sites of the code agent's router: the tool-call dict and the `{}` default). -/
def pyGet (v : PyVal) (key : String) (dflt : PyVal) : PyVal :=
  match v with
  | .pdict d => pyDictGet d key dflt
  | .pstr _ => dflt

/-- The dict underlying a LangChain `ToolCall`: keys `name`, `args`, `id`
and `type` (there is no `function` key in this standardized format). -/
def toolCallDict (tc : ToolCall) : PyVal :=
  .pdict [("name", .pstr tc.name),
          ("args", .pdict (tc.args.map (fun kv => (kv.1, PyVal.pstr kv.2)))),
          ("id", .pstr tc.id),
          ("type", .pstr "tool_call")]

/-- The string a `PyVal` compares equal to (`==` in the router compares the
looked-up value against a string literal; a non-string never equals it). -/
def pyAsStr : PyVal → Option String
  | .pstr s => some s
  | .pdict _ => none

/-- `code_agent.router`: if the last message has truthy `tool_calls`, read
`function_name = first_call.get("function", {}).get("name", "")` and route
to `"tools"` exactly when it equals `"analyze_and_edit_file"`; in every
other case `"end"`. -/
def code_router (messages : List Msg) : Option String :=
  match messages.getLast? with
  | none => none
  | some last_message =>
    match last_message with
    | .assistant _ (first_call :: _) =>
      let function_name :=
        pyAsStr (pyGet (pyGet (toolCallDict first_call) "function" (.pdict [])) "name" (.pstr ""))
      if function_name == some "analyze_and_edit_file" then some "tools" else some "end"
    | _ => some "end"

/-! ### Turn executors (`llm_node`s)

Each `llm_node` builds the model input from the current history (three of
the four prepend a fixed `SystemMessage`; the RAG agent passes the history
as-is), invokes the model once, and appends the single response. The model
collaborator is an oracle: `resp` is the `(text, tool_calls)` pair of the
`AIMessage` it returns. Each node returns the new history together with the
list of model-invocation inputs it performed (a singleton: the source holds
exactly one `invoke` call). -/

/-- The blog writer's system preamble (the source's triple-quoted string,
continuation lines carrying their literal indentation). -/
def blog_preamble : String :=
  "You are an AI assistant specialized in blog writing.\n                                   You can create new blog posts, post them to the blogging platform, and retrieve the last n blog posts.\n                                   Any generated blog post should be returned as a JSON object with 'title' and 'content' fields.\n                                   The content should be well-structured, professional and suitable for publication."

/-- The email agent's system preamble. -/
def email_preamble : String :=
  "You are an AI assistant specialized in email management.\nYou can list unread emails and summarize specific emails.\nWhen asked to list unread emails, use the 'list_unread_emails' tool.\nWhen asked to summarize an email and provided with a UID, use the 'summarize_email' tool.\nAlways be concise and helpful.\n"

/-- `blog_writer.llm_node`: prepend the system message, invoke, append the
response. -/
def blog_llm_node (state : List Msg) (resp : String × List ToolCall) :
    List Msg × List (List Msg) :=
  let system_message := Msg.system blog_preamble
  let messages_for_llm := system_message :: state
  let response := Msg.assistant resp.1 resp.2
  (state ++ [response], [messages_for_llm])

/-- `email_agent.llm_node`: prepend the system message, invoke, append the
response. -/
def email_llm_node (state : List Msg) (resp : String × List ToolCall) :
    List Msg × List (List Msg) :=
  let system_message := Msg.system email_preamble
  let messages_for_llm := system_message :: state
  let response := Msg.assistant resp.1 resp.2
  (state ++ [response], [messages_for_llm])

/-- The code agent's dynamically built system-message content, from
`uploaded_file_content` and `uploaded_file_extension` in its state. -/
def code_system_content (uploaded_file_content uploaded_file_extension : Option String) :
    String :=
  let base := "You are an AI assistant specialized in file content generation, analysis, and editing for various formats."
  let base :=
    match uploaded_file_content with
    | some content =>
      let original_ext_info :=
        match uploaded_file_extension with
        | some ext => " (originally a '." ++ ext ++ "' file)"
        | none => ""
      base ++ "\n\nThe user has provided the following file content for context or direct action"
        ++ original_ext_info ++ ":\n```\n" ++ content ++ "\n```\n\n"
        ++ "If the user asks to analyze or edit this content, use the 'analyze_and_edit_file' tool, "
        ++ "passing the provided file content, the user's specific instructions, and the original file extension (if known) to the tool. "
        ++ "When responding with generated or modified content, provide it in a raw text block or fenced code block with the appropriate language tag."
    | none => base
  base ++ "\nAlways respond concisely and provide content in markdown format (e.g., fenced code block with language tag like ```json or ```xml) if applicable, or raw text if not."

/-- `code_agent.llm_node`: prepend the dynamically built system message,
invoke, append the response. -/
def code_llm_node (uploaded_file_content uploaded_file_extension : Option String)
    (state : List Msg) (resp : String × List ToolCall) :
    List Msg × List (List Msg) :=
  let messages_for_llm :=
    Msg.system (code_system_content uploaded_file_content uploaded_file_extension) :: state
  let response := Msg.assistant resp.1 resp.2
  (state ++ [response], [messages_for_llm])

/-- `rag_agent.llm_node`: invoke on `state["messages"]` exactly as it is —
no system preamble — and append the response. -/
def rag_llm_node (state : List Msg) (resp : String × List ToolCall) :
    List Msg × List (List Msg) :=
  let messages := state
  let response := Msg.assistant resp.1 resp.2
  (messages ++ [response], [messages])

/-! ### Tool dispatch and the orchestration loop -/

/-- The `tools_node` shared by the agents: `ToolNode.invoke` executes the
tool calls of the last (`AIMessage`) message, producing one `ToolMessage`
per call, in call order, correlated by id; the node appends them to the
history. The tool executor (external `langgraph.prebuilt.ToolNode` plus the
handlers) is the oracle `texec`, giving each call's result text. -/
def tools_node (texec : ToolCall → String) (state : List Msg) : List Msg :=
  let tool_output_messages :=
    match state.getLast? with
    | some (.assistant _ tcs) => tcs.map (fun tc => Msg.toolResult tc.id (texec tc))
    | _ => []
  state ++ tool_output_messages

/-- Outcome of streaming one agent graph: the final history when the run
reached `END` within the given fuel, the model inputs of every `llm` step
in order, and the messages of the last completed step (what the stream
consumer last observed). `final = none` models a run still going when the
fuel — an artifact of the embedding, not of the source — runs out, or a
route value outside the declared `{tools, end}` mapping. -/
structure RunResult where
  final : Option (List Msg)
  inputs : List (List Msg)
  last : List Msg
deriving DecidableEq, Repr

/-- The compiled graph, common to all four agents: `START → llm`, a
conditional edge from `llm` through the router (`"tools" ↦ tools`,
`"end" ↦ END`), and `tools → llm`. `oracle k` is the model's response to
its `k`-th invocation of this run. -/
def runGraph (node : List Msg → String × List ToolCall → List Msg × List (List Msg))
    (route : List Msg → Option String) (oracle : Nat → String × List ToolCall)
    (texec : ToolCall → String) : Nat → List Msg → Nat → RunResult
  | 0, state, _ => ⟨none, [], state⟩
  | fuel + 1, state, k =>
    let step := node state (oracle k)
    let rest : RunResult :=
      if route step.1 = some "tools" then
        runGraph node route oracle texec fuel (tools_node texec step.1) (k + 1)
      else if route step.1 = some "end" then ⟨some step.1, [], step.1⟩
      else ⟨none, [], step.1⟩
    ⟨rest.final, step.2 ++ rest.inputs, rest.last⟩

/-- The blog writer's compiled graph. -/
def runBlogGraph : (Nat → String × List ToolCall) → (ToolCall → String) →
    Nat → List Msg → Nat → RunResult :=
  runGraph blog_llm_node blog_router

/-- The email agent's compiled graph. -/
def runEmailGraph : (Nat → String × List ToolCall) → (ToolCall → String) →
    Nat → List Msg → Nat → RunResult :=
  runGraph email_llm_node email_router

/-- The RAG agent's compiled graph. -/
def runRagGraph : (Nat → String × List ToolCall) → (ToolCall → String) →
    Nat → List Msg → Nat → RunResult :=
  runGraph rag_llm_node rag_router

/-! ### Entry points -/

/-- Abstract stand-in for Python `str(message)` in the `f"Agent Response: {...}"`
fallbacks. After any graph step the last message is an `AIMessage` or a
`ToolMessage`, so no theorem below exercises this rendering; we use the
message's content. -/
def pyStrMsg (m : Msg) : String :=
  msgText m

/-- A rendering of an `AIMessage.tool_calls` list for the email agent's
`f"AI requested tool call: {...}. Processing..."` branch (content beyond the
names is not depended on by any claim). -/
def toolCallsStr (tcs : List ToolCall) : String :=
  String.intercalate ", " (tcs.map (fun tc => tc.name))

/-- The result-extraction tail of `process_blog_request`: read the last
message of the last streamed step. -/
def blog_extract (messages : List Msg) : String :=
  match messages.getLast? with
  | some (.assistant t _) => t
  | some (.toolResult _ t) => t
  | some m => "Agent Response: " ++ pyStrMsg m
  | none => "No response from Blog agent."

/-- `blog_writer.process_blog_request`: seed the graph with exactly the
user's message, stream until the router ends, return the last message's
content. -/
def process_blog_request (user_message : String) (oracle : Nat → String × List ToolCall)
    (texec : ToolCall → String) (fuel : Nat) : String :=
  let initial_state := [Msg.user user_message]
  let r := runBlogGraph oracle texec fuel initial_state 0
  blog_extract r.last

/-- The result-extraction tail of `process_email_request`, reading the
process-wide slot (which by then holds the last streamed step's messages):
an `AIMessage` returns its content if truthy, else reports its pending
tool calls, else a fixed fallback; a `ToolMessage` returns its content. -/
def email_extract (messages : List Msg) : String :=
  match messages.getLast? with
  | some (.assistant t tcs) =>
    if t ≠ "" then t
    else if tcs ≠ [] then "AI requested tool call: " ++ toolCallsStr tcs ++ ". Processing..."
    else "AI finished processing without explicit content."
  | some (.toolResult _ t) => t
  | some m => "Agent Response: " ++ pyStrMsg m
  | none => "No response from email agent."

/-- `email_agent.process_email_request`: the process-wide slot
`app_state["messages"]` (its value from the previous request is `prev_slot`)
is reset to `[]`, the user message is appended, the graph is streamed from
the slot with the slot updated to each step's messages, and the extraction
reads the slot. Returns `(result, final slot value, model inputs)`. -/
def process_email_request (prev_slot : List Msg) (user_message : String)
    (oracle : Nat → String × List ToolCall) (texec : ToolCall → String) (fuel : Nat) :
    String × List Msg × List (List Msg) :=
  let slot : List Msg := []
  let slot := slot ++ [Msg.user user_message]
  let r := runEmailGraph oracle texec fuel slot 0
  (email_extract r.last, r.last, r.inputs)

/-! ### RAG entry point -/

/-- A processed document chunk, the payload `load_and_process_document`
produces: chunk text and its embedding vector (reals modelled as rationals;
no claim computes with them). -/
structure Chunk where
  text : String
  embedding : List ℚ
deriving DecidableEq, Repr

/-- The keys of the RAG agent's declared graph state: its `ChatState`
typed dict declares only `messages`. -/
def ragDeclaredStateKeys : List String :=
  ["messages"]

/-- Python truthiness of the optional `document_chunks` argument
(`None` and `[]` are falsy). -/
def chunksTruthy : Option (List Chunk) → Bool
  | none => false
  | some l => !l.isEmpty

/-- The two-step tool-use instruction `process_rag_request` builds (and
then never uses). -/
def rag_initial_instruction (user_question : String) : String :=
  "The user has asked: '" ++ user_question ++ "'. "
    ++ "You have access to a document. First, use the 'retrieve_context' tool with the question to get relevant information from the document. "
    ++ "Then, use the 'answer_question' tool with the original question and the retrieved context to formulate a final answer."

/-- The initial state `process_rag_request` seeds the graph with: the
`messages` key holds exactly the raw user question as one `HumanMessage`,
and `document_chunks` is an extra key outside the declared `ChatState`. -/
structure RagInitialState where
  messages : List Msg
  document_chunks : List Chunk
deriving DecidableEq, Repr

/-- Build the RAG agent's initial graph state. -/
def rag_initial_state (user_question : String) (document_chunks : List Chunk) :
    RagInitialState :=
  ⟨[Msg.user user_question], document_chunks⟩

/-- The result-extraction tail of `process_rag_request`. -/
def rag_extract (messages : List Msg) : String :=
  match messages.getLast? with
  | some (.assistant t _) => t
  | some (.toolResult _ t) => t
  | some m => "Agent response: " ++ pyStrMsg m
  | none => "No response from RAG agent."

/-- `rag_agent.process_rag_request`: with truthy `document_chunks`, build
the (unused) two-step instruction, seed the graph with exactly the user's
question, stream and extract; otherwise return the literal
configuration-error string without running the graph. Returns the result
together with the model inputs performed (empty = the model was never
invoked). -/
def process_rag_request (user_question : String) (document_chunks : Option (List Chunk))
    (oracle : Nat → String × List ToolCall) (texec : ToolCall → String) (fuel : Nat) :
    String × List (List Msg) :=
  if chunksTruthy document_chunks then
    let initial_instruction := rag_initial_instruction user_question
    let initial_state := rag_initial_state user_question (document_chunks.getD [])
    let r := runRagGraph oracle texec fuel initial_state.messages 0
    (rag_extract r.last, r.inputs)
  else
    ("Error: No document processed. Please upload and process a document first.", [])

/-! ### Tool handlers

A handler that Python would let raise is embedded as `Except PyError _`:
`.error` means the exception escapes the handler; `.ok s` means the handler
returns the string `s` as its tool result. -/

/-- The Python exceptions these handlers can raise or catch. -/
inductive PyError where
  | valueError (msg : String)
  | connectionError (msg : String)
deriving DecidableEq, Repr

/-- The message text of an exception (`str(e)`). -/
def PyError.msg : PyError → String
  | .valueError m => m
  | .connectionError m => m

/-- An unread email header as the mailbox collaborator reports it
(`uid`, formatted `date`, `subject`, `from`). -/
structure Email where
  uid : String
  date : String
  subject : String
  from_ : String
deriving DecidableEq, Repr

/-- What the IMAP collaborator does when asked for a session: connects and
will report the given unread headers, rejects the login, or fails in some
other way while connecting. -/
inductive MailboxOutcome where
  | connected (unread : List Email)
  | loginRejected
  | connectFailure (msg : String)
deriving DecidableEq, Repr

/-- `email_agent.connect`: raise `ValueError` when any IMAP credential is
unset; turn a rejected login or any other connection failure into a raised
`ConnectionError`; otherwise hand back the mailbox (modelled by the unread
headers it will report). -/
def connect (credsPresent : Bool) (outcome : MailboxOutcome) :
    Except PyError (List Email) :=
  if !credsPresent then
    .error (.valueError "IMAP credentials (IMAP_HOST, IMAP_USER, IMAP_PASS) must be set in environment variables.")
  else
    match outcome with
    | .connected unread => .ok unread
    | .loginRejected => .error (.connectionError "Failed to log in to the IMAP mailbox. Check credentials.")
    | .connectFailure e => .error (.connectionError ("An unexpected error occurred during IMAP connection: " ++ e))

/-- `json.dumps` of the unread-header list (one dict per mail, in fetch
order), modelled concretely; only the zero-unread branch is pinned by a
claim. -/
def jsonDumpsEmails (unread : List Email) : String :=
  "[" ++ String.intercalate ", "
    (unread.map (fun mail =>
      "\x7b\"uid\": \"" ++ mail.uid ++ "\", \"date\": \"" ++ mail.date
        ++ "\", \"subject\": \"" ++ mail.subject ++ "\", \"from\": \"" ++ mail.from_
        ++ "\"\x7d"))
    ++ "]"

/-- `email_agent.list_unread_emails`: inside a `try` covering everything,
connect, fetch the unread headers (the spec's mailbox collaborator:
`fetch_unread() -> list`), return the fixed text when there are none and
their JSON dump otherwise; a `ConnectionError` or any other exception is
caught and returned as an error string. The handler never raises. -/
def list_unread_emails (credsPresent : Bool) (outcome : MailboxOutcome) :
    Except PyError String :=
  match connect credsPresent outcome with
  | .ok unread =>
    if unread.isEmpty then
      .ok "You have no unread messages."
    else
      .ok (jsonDumpsEmails unread)
  | .error (.connectionError e) =>
    .ok ("Error connecting to email server: " ++ e)
  | .error e =>
    .ok ("An unexpected error occurred while listing unread emails: " ++ e.msg)

/-- The `ValueError` message of `blog_writer.login` when the Blogger
credentials are unset. -/
def blogCredsMsg : String :=
  "Blogger credentials (BLOGGER_USERNAME, BLOGGER_API_KEY) must be set in environment variables."

/-- The prompt `create_new_blog` builds for the raw model (the source's
wording, typos included). -/
def blog_tool_prompt (title instructions : String) : String :=
  "You are a blog writer. Create a new blog post with the title '" ++ title
    ++ "'. Use the followin instrucitions: \n " ++ instructions ++ " \n\n"
    ++ "The blog post should be well-structured, engaging, and suitable for publication. "
    ++ "Return the content of the blog post as a JSON object with 'title' and 'content' fields that are applicable. "
    ++ "The respose will the passed to the 'json.loads' function, so ensure it is valid JSON.\n\n"

/-- What `create_new_blog` returns as its tool result: the parsed blog-post
JSON value, or an error string. -/
inductive BlogToolResult where
  | post (blog_post : PyVal)
  | text (s : String)

/-- `blog_writer.create_new_blog`: when not logged in, `login()` runs
BEFORE the `try` block and raises `ValueError` if the Blogger credentials
are unset (that exception escapes the handler); inside the `try`, a model
failure or a `json.loads` failure is caught and returned as an error
string, and a successful parse returns the blog post. `llmInvoke` is the
raw-model collaborator (`.error` = `raw_llm.invoke` raised, `.ok` = the
response content), `jsonLoads` the `json.loads` collaborator
(`.error` = `JSONDecodeError`). -/
def create_new_blog (LOGGED_IN credsPresent : Bool) (title instructions : String)
    (llmInvoke : String → Except String String)
    (jsonLoads : String → Except String PyVal) : Except PyError BlogToolResult :=
  if !LOGGED_IN && !credsPresent then
    .error (.valueError blogCredsMsg)
  else
    let prompt := blog_tool_prompt title instructions
    match llmInvoke prompt with
    | .error e => .ok (.text ("Error during blog creation: " ++ e))
    | .ok content =>
      match jsonLoads content with
      | .error _ => .ok (.text "Error: The response from the LLM was not valid JSON. Please ensure the output is properly formatted.")
      | .ok blog_post => .ok (.post blog_post)

/-! ### Shared lemmas -/

/-- When a streamed run reaches `END`, the last step the consumer observed
is the final history. -/
theorem runGraph_final_last (node : List Msg → String × List ToolCall → List Msg × List (List Msg))
    (route : List Msg → Option String) (oracle : Nat → String × List ToolCall)
    (texec : ToolCall → String) :
    ∀ (fuel : Nat) (state : List Msg) (k : Nat) (m : List Msg),
      (runGraph node route oracle texec fuel state k).final = some m →
      (runGraph node route oracle texec fuel state k).last = m := by
  intro fuel
  induction fuel with
  | zero =>
    intro state k m hm
    simp [runGraph] at hm
  | succ n ih =>
    intro state k m hm
    simp only [runGraph] at hm ⊢
    by_cases h1 : route (node state (oracle k)).1 = some "tools"
    · rw [if_pos h1] at hm ⊢
      exact ih _ _ _ hm
    · rw [if_neg h1] at hm ⊢
      by_cases h2 : route (node state (oracle k)).1 = some "end"
      · rw [if_pos h2] at hm ⊢
        exact (Option.some.injEq _ _ ▸ hm : _ = m)
      · rw [if_neg h2] at hm
        exact absurd hm (by simp)

/-! ### Claim theorems -/

/-- C1: for the routers following the general contract (blog writer, email,
RAG — the file-editor router is the stricter variant), a last message that
is an assistant message carrying one or more tool calls routes to the
tool-execution branch `"tools"`; a last message carrying no tool calls —
including an assistant message with empty text and empty `tool_calls` —
routes to termination `"end"`, except that the blog writer's router routes
a tool-result last message to another model turn `"llm"`. -/
theorem general_router_contract (h : List Msg) (m : Msg) :
    (carriesToolCalls m = true →
      blog_router (h ++ [m]) = some "tools" ∧ email_router (h ++ [m]) = some "tools"
        ∧ rag_router (h ++ [m]) = some "tools")
  ∧ (carriesToolCalls m = false →
      email_router (h ++ [m]) = some "end" ∧ rag_router (h ++ [m]) = some "end"
        ∧ (Msg.isToolResult m = false → blog_router (h ++ [m]) = some "end")
        ∧ (Msg.isToolResult m = true → blog_router (h ++ [m]) = some "llm")) := by
  have hl : (h ++ [m]).getLast? = some m := by simp
  simp only [blog_router, email_router, rag_router, hl]
  cases m with
  | user t => simp [carriesToolCalls, Msg.isToolResult]
  | system t => simp [carriesToolCalls, Msg.isToolResult]
  | toolResult i t => simp [carriesToolCalls, Msg.isToolResult]
  | assistant t tcs =>
    cases tcs with
    | nil => simp [carriesToolCalls, Msg.isToolResult]
    | cons a l => simp [carriesToolCalls, Msg.isToolResult]

/-- Witness for C1 at concrete histories: an assistant message with one
tool call routes to tools; an assistant message with empty text and empty
tool calls routes to end; a tool-result message routes the blog writer
back to the model. -/
theorem general_router_contract_witness :
    blog_router [Msg.assistant "t" [⟨"create_new_blog", [], "call_0"⟩]] = some "tools"
  ∧ email_router [Msg.assistant "" []] = some "end"
  ∧ blog_router [Msg.toolResult "call_0" "ok"] = some "llm" :=
  ⟨((general_router_contract [] (Msg.assistant "t" [⟨"create_new_blog", [], "call_0"⟩])).1
      (by decide)).1,
   ((general_router_contract [] (Msg.assistant "" [])).2 (by decide)).1,
   ((general_router_contract [] (Msg.toolResult "call_0" "ok")).2 (by decide)).2.2.2 (by decide)⟩

/-- C3 (code evaluated at the failing input): the file-editor router, on a
history whose last message carries a first pending tool call named exactly
`analyze_and_edit_file`, returns `"end"` instead of dispatching — the
source reads the key `"function"`, which a LangChain tool-call dict does
not have, so the compared name is always `""`. -/
theorem code_router_recognized_tool_not_dispatched :
    code_router [Msg.user "edit this file",
      Msg.assistant "" [⟨"analyze_and_edit_file",
        [("file_content", "print(1)"), ("instructions", "add a comment")], "call_1"⟩]]
      = some "end" := by
  decide

/-- C4: a retrieval request with `document_chunks = None` returns the
literal configuration-error string, with no model invocation (and hence no
graph step) at all. -/
theorem process_rag_request_none_guard (user_question : String)
    (oracle : Nat → String × List ToolCall) (texec : ToolCall → String) (fuel : Nat) :
    process_rag_request user_question none oracle texec fuel
      = ("Error: No document processed. Please upload and process a document first.", []) :=
  rfl

/-- C7: when the mailbox collaborator reports zero unread messages, the
`list_unread_emails` tool returns exactly the text
`"You have no unread messages."`. -/
theorem list_unread_emails_zero_unread :
    list_unread_emails true (MailboxOutcome.connected [])
      = Except.ok "You have no unread messages." :=
  rfl

/-- C8: every agent's router is a pure, deterministic function of the
history — it reads only the last message, so any two histories agreeing on
their last message (in particular, the same history twice) get the same
routing decision from all four routers. -/
theorem routers_pure (h h' : List Msg) (e : h.getLast? = h'.getLast?) :
    blog_router h = blog_router h' ∧ email_router h = email_router h'
      ∧ rag_router h = rag_router h' ∧ code_router h = code_router h' := by
  simp [blog_router, email_router, rag_router, code_router, e]

/-- Witness for C8 at concrete histories with the same last message. -/
theorem routers_pure_witness :
    blog_router [Msg.user "a", Msg.toolResult "1" "r"] = blog_router [Msg.toolResult "1" "r"]
  ∧ email_router [Msg.user "a", Msg.toolResult "1" "r"] = email_router [Msg.toolResult "1" "r"]
  ∧ rag_router [Msg.user "a", Msg.toolResult "1" "r"] = rag_router [Msg.toolResult "1" "r"]
  ∧ code_router [Msg.user "a", Msg.toolResult "1" "r"] = code_router [Msg.toolResult "1" "r"] :=
  routers_pure [Msg.user "a", Msg.toolResult "1" "r"] [Msg.toolResult "1" "r"] (by rfl)

set_option maxRecDepth 16384

/-- C6: starting from a history holding exactly one user message, if the
model's first response carries no tool calls, the blog writer's loop
reaches the terminal state after that single model turn — for every fuel
bound of at least one step — and the entry point returns that assistant
message's content. -/
theorem no_tool_call_termination (u : String) (oracle : Nat → String × List ToolCall)
    (texec : ToolCall → String) (fuel : Nat) (h : (oracle 0).2 = []) :
    (runBlogGraph oracle texec (fuel + 1) [Msg.user u] 0).final
        = some [Msg.user u, Msg.assistant (oracle 0).1 []]
  ∧ process_blog_request u oracle texec (fuel + 1) = (oracle 0).1 := by
  rcases ho : oracle 0 with ⟨t, tcs⟩
  rw [ho] at h
  simp only at h
  subst h
  constructor
  · simp [runBlogGraph, runGraph, blog_llm_node, blog_router, ho]
  · simp [process_blog_request, runBlogGraph, runGraph, blog_llm_node, blog_router,
      blog_extract, ho]

/-- Witness for C6: with a model stub answering `"done"` with no tool
calls, the loop terminates at once and the entry point returns `"done"`. -/
theorem no_tool_call_termination_witness :
    ((fun _ => ("done", [])) : Nat → String × List ToolCall) 0 = ("done", ([] : List ToolCall))
  ∧ process_blog_request "write a blog" (fun _ => ("done", [])) (fun _ => "") 1 = "done" :=
  ⟨rfl,
   (no_tool_call_termination "write a blog" (fun _ => ("done", [])) (fun _ => "") 0 rfl).2⟩

/-- C5 counterexample: the RAG agent's turn executor passes the history to
the model exactly as it is — at the concrete history `[user "q"]` its
single model invocation's input is `[user "q"]`, which does not start with
a system message. This refutes the claim that every agent's `llm_node`
prepends its system preamble as the first message of the model input. -/
theorem rag_llm_node_no_preamble :
    (rag_llm_node [Msg.user "q"] ("a", [])).2 = [[Msg.user "q"]]
  ∧ startsWithSystem [Msg.user "q"] = false :=
  ⟨rfl, rfl⟩

/-- C5 amended: every turn executor appends exactly one assistant message
to the returned history and invokes the model exactly once; the blog,
email and code agents invoke it with their system preamble prepended as
the first message — and that preamble never appears in the returned
caller-visible history (it was not there before, and the appended message
is an assistant message) — while the RAG agent's turn executor invokes the
model on the history unchanged, with no system preamble. -/
theorem llm_node_contract (state : List Msg) (resp : String × List ToolCall) :
    (blog_llm_node state resp).1 = state ++ [Msg.assistant resp.1 resp.2]
  ∧ (blog_llm_node state resp).2 = [Msg.system blog_preamble :: state]
  ∧ (email_llm_node state resp).1 = state ++ [Msg.assistant resp.1 resp.2]
  ∧ (email_llm_node state resp).2 = [Msg.system email_preamble :: state]
  ∧ (∀ uc ue, (code_llm_node uc ue state resp).1 = state ++ [Msg.assistant resp.1 resp.2]
      ∧ (code_llm_node uc ue state resp).2 = [Msg.system (code_system_content uc ue) :: state])
  ∧ (rag_llm_node state resp).1 = state ++ [Msg.assistant resp.1 resp.2]
  ∧ (rag_llm_node state resp).2 = [state]
  ∧ (Msg.system blog_preamble ∉ state → Msg.system blog_preamble ∉ (blog_llm_node state resp).1)
  ∧ (Msg.system email_preamble ∉ state →
      Msg.system email_preamble ∉ (email_llm_node state resp).1) := by
  refine ⟨rfl, rfl, rfl, rfl, fun uc ue => ⟨rfl, rfl⟩, rfl, rfl, ?_, ?_⟩
  · intro hn hm
    simp [blog_llm_node] at hm
    exact hn hm
  · intro hn hm
    simp [email_llm_node] at hm
    exact hn hm

/-- Witness for C5 amended at a concrete history: the blog turn executor
appends the one assistant message, and its preamble stays out of the
returned history. -/
theorem llm_node_contract_witness :
    (blog_llm_node [Msg.user "hi"] ("yo", [])).1 = [Msg.user "hi", Msg.assistant "yo" []]
  ∧ Msg.system blog_preamble ∉ (blog_llm_node [Msg.user "hi"] ("yo", [])).1 :=
  ⟨(llm_node_contract [Msg.user "hi"] ("yo", [])).1,
   (llm_node_contract [Msg.user "hi"] ("yo", [])).2.2.2.2.2.2.2.1 (by decide)⟩

/-- C2 counterexample: running `create_new_blog` while not logged in and
with the Blogger credentials unset raises a `ValueError` out of the
handler (the `login()` call stands before the `try` block), instead of the
missing-credentials condition being converted to a tool-result string
inside the handler. -/
theorem create_new_blog_missing_creds_raises :
    create_new_blog false false "My title" "Write about Lean"
      (fun _ => Except.ok "{}") (fun _ => Except.ok (PyVal.pdict []))
      = Except.error (PyError.valueError blogCredsMsg) :=
  rfl

/-- C2 amended: tool failures arising inside a handler's `try` block are
caught there and returned as human-readable error strings — the email
agent's `list_unread_emails` never lets any failure escape, and
`create_new_blog` converts a model failure or unparseable model output to
an error-string result whenever it gets past its login check — but the
blog tools' missing-credentials check runs before the `try` block, so when
not logged in with credentials unset the handler raises a `ValueError`
rather than returning a tool-result string. -/
theorem tool_failures_handled (credsPresent : Bool) (outcome : MailboxOutcome)
    (LOGGED_IN bcreds : Bool) (title instructions : String)
    (llmInvoke : String → Except String String) (jsonLoads : String → Except String PyVal)
    (hauth : LOGGED_IN = true ∨ bcreds = true) :
    (∃ s, list_unread_emails credsPresent outcome = Except.ok s)
  ∧ (∃ r, create_new_blog LOGGED_IN bcreds title instructions llmInvoke jsonLoads
        = Except.ok r)
  ∧ (∀ t i li jl, create_new_blog false false t i li jl
        = Except.error (PyError.valueError blogCredsMsg)) := by
  refine ⟨?_, ?_, fun t i li jl => rfl⟩
  · cases credsPresent with
    | false => exact ⟨_, rfl⟩
    | true =>
      cases outcome with
      | connected unread =>
        cases hu : unread.isEmpty with
        | true =>
          exact ⟨"You have no unread messages.", by simp [list_unread_emails, connect, hu]⟩
        | false =>
          exact ⟨jsonDumpsEmails unread, by simp [list_unread_emails, connect, hu]⟩
      | loginRejected => exact ⟨_, rfl⟩
      | connectFailure m => exact ⟨_, rfl⟩
  · have hcond : (!LOGGED_IN && !bcreds) = false := by
      rcases hauth with h | h <;> subst h <;> simp
    cases hl : llmInvoke (blog_tool_prompt title instructions) with
    | error e =>
      exact ⟨.text ("Error during blog creation: " ++ e),
        by simp [create_new_blog, hcond, hl]⟩
    | ok content =>
      cases hj : jsonLoads content with
      | error e =>
        exact ⟨.text "Error: The response from the LLM was not valid JSON. Please ensure the output is properly formatted.",
          by simp [create_new_blog, hcond, hl, hj]⟩
      | ok blog_post =>
        exact ⟨.post blog_post, by simp [create_new_blog, hcond, hl, hj]⟩

/-- Witness for C2 amended: logged in (so the login check passes) with a
model that raises, the handler still returns a string result; and the
connected mailbox case also returns a string. -/
theorem tool_failures_handled_witness :
    (∃ s, list_unread_emails false (MailboxOutcome.connected []) = Except.ok s)
  ∧ (∃ r, create_new_blog true false "t" "i" (fun _ => Except.error "boom")
        (fun _ => Except.error "bad json") = Except.ok r) :=
  ⟨(tool_failures_handled false (MailboxOutcome.connected []) true false "t" "i"
      (fun _ => Except.error "boom") (fun _ => Except.error "bad json") (Or.inl rfl)).1,
   (tool_failures_handled false (MailboxOutcome.connected []) true false "t" "i"
      (fun _ => Except.error "boom") (fun _ => Except.error "bad json") (Or.inl rfl)).2.1⟩

/-- No question string equals the two-step instruction string built around
it: the instruction is strictly longer. -/
theorem ne_initial_instruction (q : String) : q ≠ rag_initial_instruction q := by
  intro heq
  have hlen := congrArg String.length heq
  rw [rag_initial_instruction] at hlen
  simp only [String.length_append] at hlen
  have ha : 0 < ("The user has asked: '" : String).length := by decide
  omega

/-- C9: with a non-empty chunk list, `process_rag_request` seeds the graph
with a history of exactly one user message carrying the raw question; the
two-step `initial_instruction` it builds is not the content of any seeded
message nor of the first model input (the model is first invoked on
exactly the seeded history), and the `document_chunks` key is not among
the declared keys of the graph's `ChatState`. -/
theorem rag_request_seeding (q : String) (chunks : List Chunk)
    (oracle : Nat → String × List ToolCall) (texec : ToolCall → String) (fuel : Nat)
    (hne : chunks ≠ []) :
    (rag_initial_state q chunks).messages = [Msg.user q]
  ∧ (process_rag_request q (some chunks) oracle texec (fuel + 1)).2.head?
      = some [Msg.user q]
  ∧ (∀ m ∈ (rag_initial_state q chunks).messages, msgText m ≠ rag_initial_instruction q)
  ∧ "document_chunks" ∉ ragDeclaredStateKeys := by
  have ht : chunksTruthy (some chunks) = true := by
    simp [chunksTruthy, hne]
  refine ⟨rfl, ?_, ?_, by decide⟩
  · simp [process_rag_request, ht, rag_initial_state, runRagGraph, runGraph, rag_llm_node]
  · intro m hm
    simp [rag_initial_state] at hm
    subst hm
    exact ne_initial_instruction q

/-- Witness for C9 with one concrete chunk: the first model input is
exactly the one seeded user message. -/
theorem rag_request_seeding_witness :
    (process_rag_request "what is this" (some [⟨"chunk text", []⟩])
        (fun _ => ("ans", [])) (fun _ => "") 1).2.head?
      = some [Msg.user "what is this"] :=
  (rag_request_seeding "what is this" [⟨"chunk text", []⟩]
      (fun _ => ("ans", [])) (fun _ => "") 0 (by decide)).2.1

/-- C10: `process_email_request` resets the process-wide slot before
appending the new user message: its outcome is the same whatever the slot
held from a previous request, the first model input of a run is exactly
the system preamble followed by the new user message, and when the
streamed run reaches `END` the slot afterwards holds exactly that run's
final history. -/
theorem email_slot_reset (prev prev' : List Msg) (u : String)
    (oracle : Nat → String × List ToolCall) (texec : ToolCall → String) (fuel : Nat) :
    process_email_request prev u oracle texec fuel
        = process_email_request prev' u oracle texec fuel
  ∧ (process_email_request prev u oracle texec (fuel + 1)).2.2.head?
        = some [Msg.system email_preamble, Msg.user u]
  ∧ (∀ m, (runEmailGraph oracle texec fuel [Msg.user u] 0).final = some m →
      (process_email_request prev u oracle texec fuel).2.1 = m) := by
  refine ⟨rfl, ?_, ?_⟩
  · simp [process_email_request, runEmailGraph, runGraph, email_llm_node]
  · intro m hm
    exact runGraph_final_last _ _ _ _ fuel [Msg.user u] 0 m hm

/-- Witness for C10: a terminating concrete run, started with a stale slot,
leaves the slot holding exactly this request's final history. -/
theorem email_slot_reset_witness :
    (process_email_request [Msg.user "old request"] "hi"
        (fun _ => ("ok", [])) (fun _ => "") 1).2.1
      = [Msg.user "hi", Msg.assistant "ok" []] :=
  (email_slot_reset [Msg.user "old request"] [] "hi" (fun _ => ("ok", [])) (fun _ => "") 1).2.2
    [Msg.user "hi", Msg.assistant "ok" []] (by decide)

end LocalAgent
